import Mathlib

/-!
# Verification of the TGTG client (`src/tgtg_scanner/tgtg/tgtg_client.py`)

Shallow embedding of the session/authentication state machine and the
guarded-send ("anti-bot recovery") loop of `TgtgClient`, together with
theorems settling the frozen claims about it.

Modelling conventions:
* Machine state is the structure `Tgtg.TgtgClient`, mirroring the mutable
  attributes set in `TgtgClient.__init__`.
* The network environment is a list of `Tgtg.Attempt`s: each invocation of
  the guarded send `_post` consumes one `Attempt`, which supplies the HTTP
  response to the primary POST of that invocation, the outcome of the
  Datadome cookie fetch (consulted only on a 403), and the random /
  scraping inputs used by user-agent derivation.
* `datetime.now()` is a `Nat` (seconds); Python's `timedelta.seconds`
  component is `timedeltaSeconds` below (the total difference modulo one
  day, exactly as Python normalises a `timedelta`).
* Exceptions are the `Except` monad with error type `TgtgError`; Python's
  `KeyError` from a `dict[...]` access is `TgtgError.keyError`.
* Observable side effects (HTTP POSTs with their payloads, cookie
  fetches, sleeps, escalation steps) are accumulated in a trace of
  `Event`s; "number of network calls" is read off this trace.

A faithfulness note that matters below: in the source's `_post`, inside the
`try:` block entered on a 403, the line `log.warning(access_token)` (line
248) references a name that is not defined in the function's scope, so at
runtime it raises `NameError` before the retry POST on line 250 is reached;
the enclosing blanket `except Exception` catches it and control falls
through to the failsafe captcha logic. The `raise TgtgAPIError` on line 257
sits inside the same `try:` block, so even if it were reached it would be
caught by the same handler. The embedding of the 403 branch therefore goes
from the cookie fetch directly to the failsafe logic, which is what the
code does on every 403.
-/

namespace Tgtg

/-- Endpoint constants from the source. -/
def BASE_URL : String := "https://apptoogoodtogo.com/api/"

def AUTH_BY_EMAIL_ENDPOINT : String := "auth/v5/authByEmail"

def AUTH_POLLING_ENDPOINT : String := "auth/v5/authByRequestPollingId"

def REFRESH_ENDPOINT : String := "token/v1/refresh"

def CREATE_ORDER_ENDPOINT : String := "order/v8/create/"

/-- `ABORT_ORDER_ENDPOINT = "order/v8/\x7b\x7d/abort"` with the order id
formatted in. -/
def ABORT_ORDER_ENDPOINT (order_id : String) : String :=
  "order/v8/" ++ order_id ++ "/abort"

def DEFAULT_ACCESS_TOKEN_LIFETIME : Nat := 3600 * 4

def DEFAULT_MAX_POLLING_TRIES : Nat := 24

def DEFAULT_POLLING_WAIT_TIME : Nat := 5

def DEFAULT_APK_VERSION : String := "24.11.0"

/-- The `USER_AGENTS` templates with the version string formatted in. -/
def USER_AGENTS (version : String) : List String :=
  [ "TGTG/" ++ version ++ " Dalvik/2.1.0 (Linux; U; Android 9; Nexus 5 Build/M4B30Z)",
    "TGTG/" ++ version ++ " Dalvik/2.1.0 (Linux; U; Android 10; SM-G935F Build/NRD90M)",
    "TGTG/" ++ version ++ " Dalvik/2.1.0 (Linux; Android 12; SM-G920V Build/MMB29K)" ]

/-- The JSON fields of a response body that the client reads
(`response.json()`), plus the raw content (`response.content`). -/
structure Body where
  state : Option String := none
  polling_id : Option String := none
  access_token : Option String := none
  refresh_token : Option String := none
  order : Option String := none
  raw : String := ""
deriving DecidableEq, Repr

/-- An HTTP response as observed by the client: status code, parsed JSON
body, raw content. -/
structure Response where
  status_code : Nat
  body : Body := {}
  content : String := ""
deriving DecidableEq, Repr

/-- Outcome of `_get_datadome_cookie`: either a fresh cookie string, or the
call raised (HTTP error, network failure, missing field). -/
inductive FetchOutcome where
  | ok (cookie : String)
  | failed
deriving DecidableEq, Repr

/-- Environment data consumed by one invocation of the guarded send:
the response to its primary POST, the cookie-fetch outcome (used only on a
403), the index drawn by `random.choice` over `USER_AGENTS`, and the
result of `get_latest_apk_version` (`none` = scraping raised). -/
structure Attempt where
  resp : Response
  fetch : FetchOutcome := .failed
  uaChoice : Nat := 0
  apkScrape : Option String := none
deriving DecidableEq, Repr

/-- The `TgtgSession` transport object: the header/cookie state the client
logic observes (user agent header, accept-language, datadome cookie in the
cookie jar). -/
structure TgtgSession where
  user_agent : Option String
  language : String
  datadome : Option String
deriving DecidableEq, Repr

/-- The mutable attributes of `TgtgClient` set in `__init__`, with the
source's default values. -/
structure TgtgClient where
  email : Option String := none
  access_token : Option String := none
  refresh_token : Option String := none
  datadome_cookie : Option String := none
  apk_version : Option String := none
  fixed_user_agent : Option String := none
  user_agent : Option String := none
  language : String := "en-GB"
  access_token_lifetime : Nat := DEFAULT_ACCESS_TOKEN_LIFETIME
  max_polling_tries : Nat := DEFAULT_MAX_POLLING_TRIES
  polling_wait_time : Nat := DEFAULT_POLLING_WAIT_TIME
  device_type : String := "ANDROID"
  session : Option TgtgSession := none
  captcha_error_count : Nat := 0
  last_time_token_refreshed : Option Nat := none
deriving DecidableEq, Repr

/-- Errors raised by the client, mirroring
`TgtgAPIError`, `TGTGConfigurationError`, `TgtgLoginError`,
`TgtgPollingError`, plus Python's `KeyError` from `dict[...]` access and
a model-level marker for an exhausted response oracle. -/
inductive TgtgError where
  | apiError (status : Nat) (content : String)
  | configurationError
  | loginError (status : Nat) (content : String)
  | pollingError
  | keyError (key : String)
  | oracleExhausted
deriving DecidableEq, Repr

/-- The JSON payload attached to a POST, as far as the claims observe it. -/
inductive Payload where
  | refreshTok (refresh_token : Option String)
  | authByEmail (device_type : String) (email : Option String)
  | authPolling (device_type : String) (email : Option String)
      (request_polling_id : Option String)
  | createOrder (item_count : Nat)
  | abortOrder (cancel_reason_id : Nat)
  | emptyPayload
deriving DecidableEq, Repr

/-- Observable side effects of a run. -/
inductive Event where
  | post (path : String) (payload : Payload) (status : Nat)
  | cookieFetch (succeeded : Bool)
  | escalate (newCount : Nat)
  | sleep (seconds : Nat)
deriving DecidableEq, Repr

deriving instance DecidableEq for Except

/-- Result of running a client operation: its outcome, the client state
after the run, the accumulated event trace, and the unconsumed remainder
of the environment. -/
structure RunResult (α : Type) where
  outcome : Except TgtgError α
  client : TgtgClient
  events : List Event
  rest : List Attempt
deriving DecidableEq, Repr

/-- `TgtgClient._get_user_agent`: the pinned user agent if one was
supplied, otherwise a `USER_AGENTS` template (chosen by `random.choice`,
here by the attempt's `uaChoice`) formatted with the apk version — the
caller-supplied one, or the scraped latest one, or `DEFAULT_APK_VERSION`
when scraping raises. -/
def _get_user_agent (st : TgtgClient) (a : Attempt) : String :=
  match st.fixed_user_agent with
  | some ua => ua
  | none =>
      let version :=
        match st.apk_version with
        | none => a.apkScrape.getD DEFAULT_APK_VERSION
        | some v => v
      (USER_AGENTS version).getD (a.uaChoice % 3) ""

/-- `TgtgClient._create_session` together with the assignment of its
result: derives a user agent if none is set, then replaces the session
with a fresh `TgtgSession` built from the current user agent, language and
datadome cookie. -/
def _create_session (st : TgtgClient) (a : Attempt) : TgtgClient :=
  let st1 :=
    if st.user_agent.isNone then
      { st with user_agent := some (_get_user_agent st a) }
    else st
  { st1 with
    session := some { user_agent := st1.user_agent, language := st1.language,
                      datadome := st1.datadome_cookie } }

/-- The part of `_post`'s `try:` block that executes on a 403: fetch a
fresh Datadome cookie; on success store it in `self.datadome_cookie` and
replace the `datadome` cookie in the session's jar. The subsequent
`log.warning(access_token)` in the source raises `NameError` (undefined
name), so the retry POST is never reached and the `except Exception`
handler drops into the failsafe logic in both cases. -/
def challengeRecovery (st : TgtgClient) (a : Attempt) : TgtgClient × List Event :=
  match a.fetch with
  | .ok c =>
      ({ st with
          datadome_cookie := some c,
          session := st.session.map fun s => { s with datadome := some c } },
       [Event.cookieFetch true])
  | .failed => (st, [Event.cookieFetch false])

/-- The failsafe captcha logic of `_post`: increment
`captcha_error_count` and apply the action keyed by the new value
(`== 1`: regenerate the user agent; `== 2`: recreate the session;
`== 4`: clear the datadome cookie and recreate the session; `>= 10`:
sleep 10 minutes, reset the counter to zero and recreate the session). -/
def failsafe (st0 : TgtgClient) (a : Attempt) : TgtgClient × List Event :=
  let c := st0.captcha_error_count + 1
  let st := { st0 with captcha_error_count := c }
  if c = 1 then
    ({ st with user_agent := some (_get_user_agent st a) }, [Event.escalate c])
  else if c = 2 then
    (_create_session st a, [Event.escalate c])
  else if c = 4 then
    (_create_session { st with datadome_cookie := none } a, [Event.escalate c])
  else if 10 ≤ c then
    ({ _create_session st a with captcha_error_count := 0 },
     [Event.escalate c, Event.sleep 600])
  else
    (st, [Event.escalate c])

/-- `TgtgClient._post`, the guarded send. Each invocation lazily creates
the session, issues the POST (consuming one `Attempt`), and:
* on 200/202 resets the captcha counter and returns the response;
* on 403 runs `challengeRecovery` (the cookie fetch — after which the
  source's `NameError` lands control in the `except` handler), then the
  failsafe logic, sleeps 1 second and recursively retries the same path
  and payload;
* on any other status raises `TgtgAPIError(status_code, content)`. -/
def _post (path : String) (payload : Payload) :
    TgtgClient → List Attempt → RunResult Response
  | st, [] => ⟨.error .oracleExhausted, st, [], []⟩
  | st0, a :: rest =>
    let st := if st0.session.isNone then _create_session st0 a else st0
    let resp := a.resp
    if resp.status_code = 200 ∨ resp.status_code = 202 then
      ⟨.ok resp, { st with captcha_error_count := 0 },
        [Event.post path payload resp.status_code], rest⟩
    else if resp.status_code = 403 then
      let p1 := challengeRecovery st a
      let p2 := failsafe p1.1 a
      let r := _post path payload p2.1 rest
      ⟨r.outcome, r.client,
        Event.post path payload resp.status_code ::
          (p1.2 ++ p2.2 ++ [Event.sleep 1] ++ r.events),
        r.rest⟩
    else
      ⟨.error (.apiError resp.status_code resp.content), st,
        [Event.post path payload resp.status_code], rest⟩

/-- Python's `timedelta.seconds` component of `now - t`: the difference
modulo one day (86400 s), always in `[0, 86400)`. -/
def timedeltaSeconds (now t : Int) : Int := (now - t) % 86400

/-- The guard of `_refresh_token`: refresh is skipped when
`last_time_token_refreshed` is set and
`(datetime.now() - last_time_token_refreshed).seconds <= access_token_lifetime`. -/
def refreshSkipped (st : TgtgClient) (now : Nat) : Bool :=
  match st.last_time_token_refreshed with
  | none => false
  | some t => decide (timedeltaSeconds now t ≤ (st.access_token_lifetime : Int))

/-- `TgtgClient._refresh_token`: no-op within the freshness window,
otherwise one guarded POST to the refresh endpoint; on success both
tokens and the refresh timestamp are overwritten from the response. -/
def _refresh_token (now : Nat) (st : TgtgClient) (env : List Attempt) :
    RunResult Unit :=
  if refreshSkipped st now then ⟨.ok (), st, [], env⟩
  else
    let r := _post REFRESH_ENDPOINT (.refreshTok st.refresh_token) st env
    match r.outcome with
    | .ok resp =>
        ⟨.ok (),
          { r.client with
              access_token := resp.body.access_token,
              refresh_token := resp.body.refresh_token,
              last_time_token_refreshed := some now },
          r.events, r.rest⟩
    | .error e => ⟨.error e, r.client, r.events, r.rest⟩

/-- `TgtgClient._already_logged`. -/
def _already_logged (st : TgtgClient) : Bool :=
  st.access_token.isSome && st.refresh_token.isSome

/-- `TgtgClient.start_polling`: up to `tries` guarded POSTs to the polling
endpoint; 202 sleeps `polling_wait_time` and continues, 200 stores both
tokens and the refresh timestamp and returns; exhaustion raises
`TgtgPollingError`. (A returned status other than 200/202 cannot occur —
`_post` only returns 200/202 — and would continue the loop without
sleeping, as in the source.) -/
def start_polling (polling_id : Option String) (now : Nat) :
    TgtgClient → Nat → List Attempt → RunResult Unit
  | st, 0, env => ⟨.error .pollingError, st, [], env⟩
  | st, Nat.succ tries, env =>
    let r := _post AUTH_POLLING_ENDPOINT
        (.authPolling st.device_type st.email polling_id) st env
    match r.outcome with
    | .ok resp =>
      if resp.status_code = 202 then
        let r2 := start_polling polling_id now r.client tries r.rest
        ⟨r2.outcome, r2.client,
          r.events ++ [Event.sleep r.client.polling_wait_time] ++ r2.events,
          r2.rest⟩
      else if resp.status_code = 200 then
        ⟨.ok (),
          { r.client with
              access_token := resp.body.access_token,
              refresh_token := resp.body.refresh_token,
              last_time_token_refreshed := some now },
          r.events, r.rest⟩
      else
        let r2 := start_polling polling_id now r.client tries r.rest
        ⟨r2.outcome, r2.client, r.events ++ r2.events, r2.rest⟩
    | .error e => ⟨.error e, r.client, r.events, r.rest⟩

/-- `TgtgClient.login`: `TGTGConfigurationError` unless an email or both
tokens are present; with both tokens, delegate to `_refresh_token`;
otherwise POST to the email-auth endpoint and dispatch on the body's
`state` field (`dict["state"]` raises `KeyError` when the field is
missing): `TERMS` raises `TgtgPollingError`, `WAIT` enters
`start_polling` with the returned `polling_id`, anything else raises
`TgtgLoginError(status_code, content)`. -/
def login (now : Nat) (st : TgtgClient) (env : List Attempt) : RunResult Unit :=
  if ¬ (st.email.isSome || (st.access_token.isSome && st.refresh_token.isSome)) then
    ⟨.error .configurationError, st, [], env⟩
  else if _already_logged st then
    _refresh_token now st env
  else
    let r := _post AUTH_BY_EMAIL_ENDPOINT
        (.authByEmail st.device_type st.email) st env
    match r.outcome with
    | .ok resp =>
      match resp.body.state with
      | none => ⟨.error (.keyError "state"), r.client, r.events, r.rest⟩
      | some s =>
        if s = "TERMS" then
          ⟨.error .pollingError, r.client, r.events, r.rest⟩
        else if s = "WAIT" then
          let r2 := start_polling resp.body.polling_id now r.client
              r.client.max_polling_tries r.rest
          ⟨r2.outcome, r2.client, r.events ++ r2.events, r2.rest⟩
        else
          ⟨.error (.loginError resp.status_code resp.content),
            r.client, r.events, r.rest⟩
    | .error e => ⟨.error e, r.client, r.events, r.rest⟩

/-- The credential snapshot returned by `TgtgClient.get_credentials`:
exactly the fields email, access_token, refresh_token, datadome_cookie. -/
structure Credentials where
  email : Option String
  access_token : Option String
  refresh_token : Option String
  datadome_cookie : Option String
deriving DecidableEq, Repr

/-- `TgtgClient.get_credentials`: `login()`, then export the snapshot. -/
def get_credentials (now : Nat) (st : TgtgClient) (env : List Attempt) :
    RunResult Credentials :=
  let r := login now st env
  match r.outcome with
  | .ok _ =>
      ⟨.ok ⟨r.client.email, r.client.access_token, r.client.refresh_token,
            r.client.datadome_cookie⟩,
        r.client, r.events, r.rest⟩
  | .error e => ⟨.error e, r.client, r.events, r.rest⟩

/-- A `TgtgClient` constructed from an exported credential snapshot (the
`__init__` call with exactly those keyword arguments); every other
attribute takes its `__init__` default — in particular
`last_time_token_refreshed` is `None`. -/
def clientFromCredentials (c : Credentials) : TgtgClient :=
  { email := c.email, access_token := c.access_token,
    refresh_token := c.refresh_token, datadome_cookie := c.datadome_cookie }

/-- The default of `response.json().get("order", \x7b\x7d)`: the empty
JSON object, represented by its text. -/
def emptyObject : String := "\x7b\x7d"

/-- `TgtgClient.create_order`: `login()`, one guarded POST to the create
endpoint, `TgtgAPIError(status_code, content)` unless the body's `state`
is `"SUCCESS"`, else return the body's `order` object. -/
def create_order (now : Nat) (st : TgtgClient) (item_id : String)
    (item_count : Nat) (env : List Attempt) : RunResult String :=
  let r := login now st env
  match r.outcome with
  | .error e => ⟨.error e, r.client, r.events, r.rest⟩
  | .ok _ =>
    let r2 := _post (CREATE_ORDER_ENDPOINT ++ "/" ++ item_id)
        (.createOrder item_count) r.client r.rest
    match r2.outcome with
    | .error e => ⟨.error e, r2.client, r.events ++ r2.events, r2.rest⟩
    | .ok resp =>
      if resp.body.state ≠ some "SUCCESS" then
        ⟨.error (.apiError resp.status_code resp.content), r2.client,
          r.events ++ r2.events, r2.rest⟩
      else
        ⟨.ok (resp.body.order.getD emptyObject), r2.client,
          r.events ++ r2.events, r2.rest⟩

/-- `TgtgClient.abort_order`: `login()`, one guarded POST to the abort
endpoint, `TgtgAPIError(status_code, content)` unless the body's `state`
is `"SUCCESS"`. -/
def abort_order (now : Nat) (st : TgtgClient) (order_id : String)
    (env : List Attempt) : RunResult Unit :=
  let r := login now st env
  match r.outcome with
  | .error e => ⟨.error e, r.client, r.events, r.rest⟩
  | .ok _ =>
    let r2 := _post (ABORT_ORDER_ENDPOINT order_id) (.abortOrder 1)
        r.client r.rest
    match r2.outcome with
    | .error e => ⟨.error e, r2.client, r.events ++ r2.events, r2.rest⟩
    | .ok resp =>
      if resp.body.state ≠ some "SUCCESS" then
        ⟨.error (.apiError resp.status_code resp.content), r2.client,
          r.events ++ r2.events, r2.rest⟩
      else
        ⟨.ok (), r2.client, r.events ++ r2.events, r2.rest⟩

/-- One event's effect on the spec-side count of consecutive unresolved
403s: a successful POST resets it, a 403 POST increments it, anything
else leaves it. -/
def specStep (n : Nat) (e : Event) : Nat :=
  match e with
  | .post _ _ s => if s = 200 ∨ s = 202 then 0 else if s = 403 then n + 1 else n
  | _ => n

/-- Modelled from the claim's wording (for comparison with the code's
counter): the number of consecutive 403 POSTs since the last successful
(200/202) POST, read off an event trace. -/
def specConsecutive403s (evs : List Event) : Nat :=
  evs.foldl specStep 0

end Tgtg

namespace Tgtg

/-! ## Concrete fixtures used by counterexamples and witnesses -/

/-- A client with a live session and a pinned user agent, email and both
tokens set. -/
def fixedClient : TgtgClient :=
  { email := some "user@example.com", access_token := some "atk",
    refresh_token := some "rtk", datadome_cookie := some "oldC",
    fixed_user_agent := some "UA", user_agent := some "UA",
    session := some { user_agent := some "UA", language := "en-GB",
                      datadome := some "oldC" } }

/-- A client holding only an email (no tokens), with a live session. -/
def emailClient : TgtgClient :=
  { email := some "user@example.com",
    fixed_user_agent := some "UA", user_agent := some "UA",
    session := some { user_agent := some "UA", language := "en-GB",
                      datadome := none } }

/-- A 403 response whose Datadome cookie fetch fails. -/
def aBlock : Attempt := { resp := { status_code := 403, content := "blk" } }

/-- A 403 response whose Datadome cookie fetch succeeds with `"newC"`. -/
def aBlockFetchOk : Attempt :=
  { resp := { status_code := 403, content := "blk" }, fetch := .ok "newC" }

/-- A definitive server failure: HTTP 500 with body `"b500"`. -/
def a500x : Attempt := { resp := { status_code := 500, content := "b500" } }

/-- A 202 (accepted / still pending) response. -/
def a202x : Attempt := { resp := { status_code := 202 } }

/-- A 200 response whose JSON body has no `state` field. -/
def aNoState : Attempt := { resp := { status_code := 200, content := "bod" } }

/-- True of an event iff it is an HTTP POST. -/
def isPostEvent : Event → Bool
  | .post _ _ _ => true
  | _ => false

/-! ## C3 -/

/-- C3: whenever `email` is unset and at least one of the two tokens is
unset, `login` raises `TGTGConfigurationError` immediately: no network
call is made (empty trace, environment untouched) and the client state is
returned unchanged. -/
theorem C3_login_configuration_error (now : Nat) (st : TgtgClient)
    (env : List Attempt) (he : st.email = none)
    (ht : st.access_token = none ∨ st.refresh_token = none) :
    login now st env = ⟨.error .configurationError, st, [], env⟩ := by
  rcases ht with h | h <;> simp [login, he, h]

theorem C3_witness :
    ({} : TgtgClient).email = none ∧
    login 0 ({} : TgtgClient) [aBlock] =
      ⟨.error .configurationError, {}, [], [aBlock]⟩ :=
  ⟨rfl, C3_login_configuration_error 0 {} [aBlock] rfl (Or.inl rfl)⟩

/-! ## C4 -/

/-- A client holding both tokens whose last refresh was at time 0. -/
def staleTokenClient : TgtgClient :=
  { access_token := some "atk", refresh_token := some "rtk",
    last_time_token_refreshed := some 0 }

/-- C4 (divergence witness): with both tokens and a last refresh one full
day ago — far outside the 4-hour `access_token_lifetime` — `login` issues
zero network calls and leaves the client unchanged, because the source
compares `timedelta.seconds` (the difference modulo one day, here 0)
against the lifetime instead of the total elapsed time. -/
theorem C4_code_divergence :
    DEFAULT_ACCESS_TOKEN_LIFETIME < 86400 ∧
    timedeltaSeconds 86400 0 = 0 ∧
    login 86400 staleTokenClient [aBlock] =
      ⟨.ok (), staleTokenClient, [], [aBlock]⟩ := by
  decide

/-! ## C1 -/

/-- C1 (divergence witness): a guarded send whose first POST returns 403
and whose challenge-cookie fetch succeeds, with the environment then
answering 500: the source never reaches the single retried POST of the
`try:` block (`log.warning(access_token)` raises `NameError`, caught by
the blanket `except`), so instead of failing immediately the guarded send
escalates (counter becomes 1) and repeats itself; the APIError that
eventually surfaces comes from the second full guarded attempt, after an
escalation and two POSTs. -/
theorem C1_code_divergence :
    (_post "p" .emptyPayload fixedClient [aBlockFetchOk, a500x]).outcome
        = .error (.apiError 500 "b500") ∧
    Event.escalate 1 ∈
      (_post "p" .emptyPayload fixedClient [aBlockFetchOk, a500x]).events ∧
    ((_post "p" .emptyPayload fixedClient [aBlockFetchOk, a500x]).events.countP
        isPostEvent) = 2 := by
  decide

/-! ## C5 counterexample -/

/-- C5 counterexample: after 10 consecutive unresolved 403 blocks (cookie
fetch failing each time) the client's `captcha_error_count` is 0 — the
`>= 10` circuit breaker reset it — while the number of consecutive
unresolved 403s since the last success is 10, so the counter does not
equal that number. -/
theorem C5_counterexample :
    (_post "p" .emptyPayload fixedClient
        (List.replicate 10 aBlock)).client.captcha_error_count ≠
      specConsecutive403s
        (_post "p" .emptyPayload fixedClient
          (List.replicate 10 aBlock)).events := by
  decide

/-! ## C8 counterexample -/

/-- C8 counterexample: an email-auth response whose JSON body has no
`state` field makes `login` raise Python's `KeyError` (from
`first_login_response["state"]`), not `TgtgLoginError` carrying status
and body. -/
theorem C8_counterexample :
    (login 0 emailClient [aNoState]).outcome = .error (.keyError "state") ∧
    (login 0 emailClient [aNoState]).outcome ≠
      .error (.loginError 200 "bod") := by
  decide

/-! ## C9 counterexample -/

/-- C9 counterexample: a guarded call that terminates with an APIError
(first POST 403, cookie fetch succeeded, next attempt 500) has
nevertheless modified the stored challenge cookie: it ends as `"newC"`
although the call started with `"oldC"`. -/
theorem C9_counterexample :
    (_post "p" .emptyPayload fixedClient [aBlockFetchOk, a500x]).outcome
        = .error (.apiError 500 "b500") ∧
    (_post "p" .emptyPayload fixedClient
        [aBlockFetchOk, a500x]).client.datadome_cookie ≠
      fixedClient.datadome_cookie := by
  decide

end Tgtg

namespace Tgtg

/-! ## C2 -/

/-- `n` copies of an event block, concatenated. -/
def repeatTrace : Nat → List Event → List Event
  | 0, _ => []
  | n + 1, evs => evs ++ repeatTrace n evs

/-- Re-setting an already-zero captcha counter is the identity on the
client state. -/
theorem captcha_reset_eta (st : TgtgClient) (h : st.captcha_error_count = 0) :
    { st with captcha_error_count := 0 } = st := by
  cases st
  simp_all

/-- A run of `start_polling` whose budget equals the environment length and
whose environment answers 202 on every attempt performs one POST and one
`polling_wait_time` sleep per attempt, consumes the whole environment,
leaves the client unchanged, and ends in `TgtgPollingError`. -/
theorem start_polling_all_202 (pid : Option String) (now : Nat) :
    ∀ (env : List Attempt) (st : TgtgClient) (sess : TgtgSession),
      st.session = some sess → st.captcha_error_count = 0 →
      (∀ a ∈ env, a.resp.status_code = 202) →
      start_polling pid now st env.length env =
        ⟨.error .pollingError, st,
          repeatTrace env.length
            [Event.post AUTH_POLLING_ENDPOINT
               (.authPolling st.device_type st.email pid) 202,
             Event.sleep st.polling_wait_time],
          []⟩ := by
  intro env
  induction env with
  | nil => intro st sess _ _ _; rfl
  | cons a rest ih =>
    intro st sess hs hc hall
    have ha : a.resp.status_code = 202 := hall a (by simp)
    have hrest : ∀ b ∈ rest, b.resp.status_code = 202 := fun b hb =>
      hall b (by simp [hb])
    have heta :
        ({ st with session := some sess, captcha_error_count := 0 } : TgtgClient)
          = st := by
      rw [← hs]; exact captcha_reset_eta st hc
    simp [start_polling, _post, hs, ha, repeatTrace]
    rw [heta, ih st sess hs hc hrest]
    exact ⟨rfl, rfl, rfl, rfl⟩


/-- C2: with email-only credentials, an email-auth answer of `WAIT`, and a
polling endpoint answering HTTP 202 on each of the configured
`max_polling_tries = n ≥ 1` attempts, `login` performs exactly `n` POSTs
to the polling endpoint — a `polling_wait_time` sleep separating (and
also following) consecutive attempts — then raises `TgtgPollingError`,
and the client state, tokens included, is returned unchanged. -/
theorem C2_polling_exhaustion (now : Nat) (st : TgtgClient)
    (sess : TgtgSession) (a : Attempt) (pollEnv : List Attempt)
    (hn : 1 ≤ st.max_polling_tries)
    (hlen : pollEnv.length = st.max_polling_tries)
    (he : st.email.isSome = true) (hat : st.access_token = none)
    (hs : st.session = some sess) (hc : st.captcha_error_count = 0)
    (hstatus : a.resp.status_code = 200)
    (hstate : a.resp.body.state = some "WAIT")
    (hall : ∀ b ∈ pollEnv, b.resp.status_code = 202) :
    login now st (a :: pollEnv) =
      ⟨.error .pollingError, st,
        Event.post AUTH_BY_EMAIL_ENDPOINT
            (.authByEmail st.device_type st.email) 200 ::
          repeatTrace st.max_polling_tries
            [Event.post AUTH_POLLING_ENDPOINT
               (.authPolling st.device_type st.email a.resp.body.polling_id) 202,
             Event.sleep st.polling_wait_time],
        []⟩ := by
  have heta :
      ({ st with access_token := none, session := some sess,
                 captcha_error_count := 0 } : TgtgClient) = st := by
    rw [← hat, ← hs]; exact captcha_reset_eta st hc
  simp [login, _already_logged, _post, he, hat, hs, hstatus, hstate]
  rw [heta, ← hlen, start_polling_all_202 a.resp.body.polling_id now pollEnv
    st sess hs hc hall, hlen]
  exact ⟨rfl, rfl, rfl, rfl⟩

/-- The `WAIT` email-auth response used by the C2 witness. -/
def aWait : Attempt :=
  { resp := { status_code := 200,
              body := { state := some "WAIT", polling_id := some "pid" } } }

/-- The C2 witness client: email only, two polling tries. -/
def pollingClient : TgtgClient := { emailClient with max_polling_tries := 2 }

theorem C2_witness :
    1 ≤ pollingClient.max_polling_tries ∧
    login 7 pollingClient (aWait :: [a202x, a202x]) =
      ⟨.error .pollingError, pollingClient,
        Event.post AUTH_BY_EMAIL_ENDPOINT
            (.authByEmail pollingClient.device_type pollingClient.email) 200 ::
          repeatTrace pollingClient.max_polling_tries
            [Event.post AUTH_POLLING_ENDPOINT
               (.authPolling pollingClient.device_type pollingClient.email
                 aWait.resp.body.polling_id) 202,
             Event.sleep pollingClient.polling_wait_time],
        []⟩ :=
  ⟨by decide,
   C2_polling_exhaustion 7 pollingClient
     { user_agent := some "UA", language := "en-GB", datadome := none }
     aWait [a202x, a202x] (by decide) rfl rfl rfl rfl rfl rfl rfl
     (by decide)⟩

end Tgtg

namespace Tgtg

/-! ## C6 -/

/-- C6: for a logged-in, fresh client (`login` is a no-op) and a delivered
response (HTTP 200 or 202), `create_order` and `abort_order` raise
`TgtgAPIError(status_code, content)` whenever the response body's `state`
field is not `"SUCCESS"` — even when the HTTP status is 200 — and
`create_order` returns the body's `order` object exactly when `state`
equals `"SUCCESS"`. -/
theorem C6_order_state_check (now : Nat) (st : TgtgClient) (a : Attempt)
    (item_id order_id : String) (item_count : Nat)
    (hA : st.access_token.isSome = true) (hR : st.refresh_token.isSome = true)
    (hSkip : refreshSkipped st now = true)
    (hs : a.resp.status_code = 200 ∨ a.resp.status_code = 202) :
    (a.resp.body.state ≠ some "SUCCESS" →
      (create_order now st item_id item_count [a]).outcome
          = .error (.apiError a.resp.status_code a.resp.content) ∧
      (abort_order now st order_id [a]).outcome
          = .error (.apiError a.resp.status_code a.resp.content)) ∧
    (a.resp.body.state = some "SUCCESS" →
      (create_order now st item_id item_count [a]).outcome
          = .ok (a.resp.body.order.getD emptyObject) ∧
      (abort_order now st order_id [a]).outcome = .ok ()) := by
  constructor
  · intro hst
    rcases hs with h | h <;>
      simp [create_order, abort_order, login, _already_logged, _refresh_token,
        _post, hA, hR, hSkip, h, hst]
  · intro hst
    rcases hs with h | h <;>
      simp [create_order, abort_order, login, _already_logged, _refresh_token,
        _post, hA, hR, hSkip, h, hst]

/-- A logged-in client refreshed at time 5 (fresh at `now = 5`). -/
def freshClient : TgtgClient :=
  { access_token := some "atk", refresh_token := some "rtk",
    last_time_token_refreshed := some 5 }

/-- HTTP 200 whose body's `state` is `"FAIL"`. -/
def aFail200 : Attempt :=
  { resp := { status_code := 200, body := { state := some "FAIL" },
              content := "ord" } }

theorem C6_witness :
    refreshSkipped freshClient 5 = true ∧
    (create_order 5 freshClient "item1" 1 [aFail200]).outcome
        = .error (.apiError 200 "ord") ∧
    (abort_order 5 freshClient "ord1" [aFail200]).outcome
        = .error (.apiError 200 "ord") :=
  ⟨by decide,
   (C6_order_state_check 5 freshClient aFail200 "item1" "ord1" 1 rfl rfl
      (by decide) (Or.inl rfl)).1 (by decide)⟩

end Tgtg

namespace Tgtg

/-! ## C7 -/

/-- `_get_user_agent` does not read the captcha counter. -/
theorem _get_user_agent_captcha (st : TgtgClient) (a : Attempt) (c : Nat) :
    _get_user_agent { st with captcha_error_count := c } a
      = _get_user_agent st a := rfl

/-- C7: the failsafe action is exactly determined by the incremented
counter: 1 regenerates the user agent (and changes nothing else); 2
recreates the transport session; 4 clears the stored challenge cookie and
recreates the session; at or above 10 sleeps 10 minutes, resets the
counter to zero and recreates the session; and on every 403 the guarded
send appends a 1-second sleep and then repeats the entire guarded send
for the same path and payload. -/
theorem C7_failsafe_ladder :
    (∀ (st : TgtgClient) (a : Attempt), st.captcha_error_count = 0 →
       failsafe st a =
         ({ st with captcha_error_count := 1,
                    user_agent := some (_get_user_agent st a) },
          [Event.escalate 1])) ∧
    (∀ (st : TgtgClient) (a : Attempt), st.captcha_error_count = 1 →
       failsafe st a =
         (_create_session { st with captcha_error_count := 2 } a,
          [Event.escalate 2])) ∧
    (∀ (st : TgtgClient) (a : Attempt), st.captcha_error_count = 3 →
       failsafe st a =
         (_create_session { st with captcha_error_count := 4,
                                    datadome_cookie := none } a,
          [Event.escalate 4])) ∧
    (∀ (st : TgtgClient) (a : Attempt), 9 ≤ st.captcha_error_count →
       failsafe st a =
         ({ _create_session
              { st with captcha_error_count := st.captcha_error_count + 1 } a
            with captcha_error_count := 0 },
          [Event.escalate (st.captcha_error_count + 1), Event.sleep 600])) ∧
    (∀ (path : String) (payload : Payload) (st : TgtgClient) (a : Attempt)
       (rest : List Attempt), a.resp.status_code = 403 →
       _post path payload st (a :: rest) =
         (let st1 := if st.session.isNone then _create_session st a else st
          let p1 := challengeRecovery st1 a
          let p2 := failsafe p1.1 a
          let r := _post path payload p2.1 rest
          ⟨r.outcome, r.client,
            Event.post path payload 403 ::
              (p1.2 ++ p2.2 ++ [Event.sleep 1] ++ r.events),
            r.rest⟩)) := by
  refine ⟨?_, ?_, ?_, ?_, ?_⟩
  · intro st a h; simp [failsafe, h, _get_user_agent_captcha]
  · intro st a h; simp [failsafe, h]
  · intro st a h; simp [failsafe, h]
  · intro st a h
    have h1 : st.captcha_error_count + 1 ≠ 1 := by omega
    have h2 : st.captcha_error_count + 1 ≠ 2 := by omega
    have h4 : st.captcha_error_count + 1 ≠ 4 := by omega
    have h10 : 10 ≤ st.captcha_error_count + 1 := by omega
    simp [failsafe, h1, h2, h4, h10]
  · intro path payload st a rest ha
    simp [_post, ha]

theorem C7_witness :
    failsafe fixedClient aBlock =
      ({ fixedClient with captcha_error_count := 1,
                          user_agent := some (_get_user_agent fixedClient aBlock) },
       [Event.escalate 1]) :=
  C7_failsafe_ladder.1 fixedClient aBlock rfl

end Tgtg

namespace Tgtg

/-- A client in its steady operating configuration: pinned user agent `u`,
no stored challenge cookie, and a live session built from those fields. -/
def SteadyClient (u : String) (st : TgtgClient) : Prop :=
  st.fixed_user_agent = some u ∧ st.user_agent = some u ∧
  st.datadome_cookie = none ∧
  st.session = some { user_agent := some u, language := st.language,
                      datadome := none }

/-- An environment answering every POST with an unresolved 403 block
(cookie fetch failing). -/
def Blocked403 (env : List Attempt) : Prop :=
  ∀ a ∈ env, a.resp.status_code = 403 ∧ a.fetch = .failed

/-- Overwriting the captcha counter with its own value is the identity. -/
theorem captcha_set_eta (st : TgtgClient) (c : Nat)
    (h : st.captcha_error_count = c) :
    { st with captcha_error_count := c } = st := by
  cases st; simp_all

/-- In the steady configuration with a counter below 10, the failsafe
state change is exactly `counter := (counter + 1) % 10`. -/
theorem failsafe_steady (u : String) (st : TgtgClient) (a : Attempt)
    (hS : SteadyClient u st) (hc : st.captcha_error_count < 10) :
    (failsafe st a).1 =
      { st with captcha_error_count := (st.captcha_error_count + 1) % 10 } := by
  obtain ⟨e1, a1, r1, d1, v1, f1, u1, l1, t1, m1, p1, y1, s1, c1, z1⟩ := st
  obtain ⟨hf, hu, hd, hs⟩ := hS
  dsimp only at hf hu hd hs hc
  subst hf; subst hu; subst hd; subst hs
  interval_cases c1 <;> first | rfl | simp [failsafe, _create_session]

/-- The failsafe emits no POST events. -/
theorem failsafe_no_post (st : TgtgClient) (a : Attempt) :
    ∀ e ∈ (failsafe st a).2, isPostEvent e = false := by
  intro e he
  simp only [failsafe] at he
  split at he
  · simp_all [isPostEvent]
  · split at he
    · simp_all [isPostEvent]
    · split at he
      · simp_all [isPostEvent]
      · split at he <;> simp_all [isPostEvent] <;>
          rcases he with h | h <;> subst h <;> rfl

/-- Non-POST events do not change the spec-side count. -/
theorem specStep_nonpost (n : Nat) (e : Event) (h : isPostEvent e = false) :
    specStep n e = n := by
  cases e <;> simp_all [isPostEvent, specStep]

/-- Folding the spec-side step over POST-free events is the identity. -/
theorem foldl_specStep_nonpost :
    ∀ (evs : List Event) (n : Nat), (∀ e ∈ evs, isPostEvent e = false) →
      List.foldl specStep n evs = n := by
  intro evs
  induction evs with
  | nil => intro n _; rfl
  | cons e rest ih =>
    intro n h
    rw [List.foldl_cons, specStep_nonpost n e (h e (by simp)),
      ih n fun x hx => h x (by simp [hx])]

/-- The steady configuration is insensitive to the captcha counter. -/
theorem steady_captcha (u : String) (st : TgtgClient) (x : Nat)
    (hS : SteadyClient u st) :
    SteadyClient u { st with captcha_error_count := x } := by
  obtain ⟨h1, h2, h3, h4⟩ := hS
  exact ⟨h1, h2, h3, h4⟩

/-- One unresolved 403 step of the guarded send in the steady
configuration: the cookie fetch fails, the failsafe bumps the counter
modulo 10, and the send recurses on the rest of the environment with the
same path and payload. -/
theorem _post_blocked_step (path : String) (payload : Payload) (u : String)
    (st : TgtgClient) (a : Attempt) (rest : List Attempt)
    (hS : SteadyClient u st) (hc : st.captcha_error_count < 10)
    (ha : a.resp.status_code = 403) (hf : a.fetch = .failed) :
    _post path payload st (a :: rest) =
      (let r := _post path payload
          { st with captcha_error_count := (st.captcha_error_count + 1) % 10 }
          rest
       ⟨r.outcome, r.client,
         Event.post path payload 403 :: Event.cookieFetch false ::
           ((failsafe st a).2 ++ [Event.sleep 1] ++ r.events), r.rest⟩) := by
  obtain ⟨h1, h2, h3, h4⟩ := hS
  have hfs := failsafe_steady u st a ⟨h1, h2, h3, h4⟩ hc
  simp [_post, ha, hf, challengeRecovery, h4, hfs]

/-- Collapsing two consecutive captcha-counter updates. -/
theorem captcha_update_update (st : TgtgClient) (x y : Nat) :
    ({ { st with captcha_error_count := x } with captcha_error_count := y }
      : TgtgClient) = { st with captcha_error_count := y } := rfl

/-- Running the guarded send against consecutive unresolved 403s from the
steady configuration: the final counter is the starting counter plus the
number of blocks, modulo 10, and the spec-side fold over the emitted
trace counts exactly one 403 per block. -/
theorem _post_blocked_run (path : String) (payload : Payload) (u : String) :
    ∀ (env : List Attempt) (st : TgtgClient),
      SteadyClient u st → st.captcha_error_count < 10 → Blocked403 env →
      (_post path payload st env).client =
        { st with captcha_error_count :=
            (st.captcha_error_count + env.length) % 10 } ∧
      ∀ k : Nat, List.foldl specStep k (_post path payload st env).events
          = k + env.length := by
  intro env
  induction env with
  | nil =>
    intro st hS hc hB
    constructor
    · show st = _
      refine (captcha_set_eta st _ ?_).symm
      simp only [List.length_nil, Nat.add_zero]
      omega
    · intro k
      show List.foldl specStep k [] = k + List.length ([] : List Attempt)
      simp
  | cons a rest ih =>
    intro st hS hc hB
    have ha := (hB a (by simp)).1
    have hf := (hB a (by simp)).2
    have hrest : Blocked403 rest := fun b hb => hB b (List.mem_cons_of_mem _ hb)
    have hstep := _post_blocked_step path payload u st a rest hS hc ha hf
    have hS' : SteadyClient u
        { st with captcha_error_count := (st.captcha_error_count + 1) % 10 } :=
      steady_captcha u st _ hS
    have hc' : ({ st with captcha_error_count :=
        (st.captcha_error_count + 1) % 10 } : TgtgClient).captcha_error_count
          < 10 := by
      show (st.captcha_error_count + 1) % 10 < 10
      omega
    obtain ⟨ihc, ihf⟩ := ih _ hS' hc' hrest
    rw [hstep]
    constructor
    · show (_post path payload _ rest).client = _
      rw [ihc, captcha_update_update]
      have harith : ((({ st with captcha_error_count :=
            (st.captcha_error_count + 1) % 10 } : TgtgClient)).captcha_error_count
              + rest.length) % 10
          = (st.captcha_error_count + (a :: rest).length) % 10 := by
        show ((st.captcha_error_count + 1) % 10 + rest.length) % 10 = _
        simp only [List.length_cons]
        omega
      rw [harith]
    · intro k
      show List.foldl specStep k
          (Event.post path payload 403 :: Event.cookieFetch false ::
            ((failsafe st a).2 ++ [Event.sleep 1] ++
              (_post path payload _ rest).events))
          = k + (a :: rest).length
      rw [List.foldl_cons, List.foldl_cons]
      have h2 : specStep (specStep k (Event.post path payload 403))
          (Event.cookieFetch false) = k + 1 := by
        simp [specStep]
      rw [h2, List.foldl_append, List.foldl_append,
        foldl_specStep_nonpost _ _ (failsafe_no_post st a)]
      have h3 : List.foldl specStep (k + 1) [Event.sleep 1] = k + 1 := rfl
      rw [h3, ihf (k + 1)]
      simp only [List.length_cons]
      omega

end Tgtg

namespace Tgtg

/-- Any guarded send that returns success leaves the counter at 0. -/
theorem _post_success_resets (path : String) (payload : Payload) :
    ∀ (env : List Attempt) (st : TgtgClient) (resp : Response),
      (_post path payload st env).outcome = .ok resp →
      (_post path payload st env).client.captcha_error_count = 0 := by
  intro env
  induction env with
  | nil => intro st resp h; exact absurd h (by simp [_post])
  | cons a rest ih =>
    intro st resp h
    by_cases h200 : a.resp.status_code = 200 ∨ a.resp.status_code = 202
    · simp [_post, h200]
    · by_cases h403 : a.resp.status_code = 403
      · simp [_post, h200, h403] at h ⊢
        exact ih _ resp h
      · simp [_post, h200, h403] at h

/-- C5 (amended): over any run of consecutive unresolved 403 blocks
starting from a steady client with a zero counter, the counter afterwards
equals the number of those blocks **modulo 10** (the `>= 10`
circuit-breaker resets it to zero on every 10th consecutive block), and
the counter is set to 0 whenever a guarded POST returns 200 or 202. -/
theorem C5_amended_counter (path : String) (payload : Payload) (u : String)
    (env : List Attempt) (st : TgtgClient)
    (hS : SteadyClient u st) (hc : st.captcha_error_count = 0)
    (hB : Blocked403 env) :
    ((_post path payload st env).client.captcha_error_count
        = specConsecutive403s (_post path payload st env).events % 10 ∧
      specConsecutive403s (_post path payload st env).events = env.length) ∧
    (∀ (env2 : List Attempt) (st2 : TgtgClient) (resp : Response),
      (_post path payload st2 env2).outcome = .ok resp →
      (_post path payload st2 env2).client.captcha_error_count = 0) := by
  obtain ⟨ihc, ihf⟩ := _post_blocked_run path payload u env st hS (by omega) hB
  have hspec : specConsecutive403s (_post path payload st env).events
      = env.length := by
    have h0 := ihf 0
    simpa [specConsecutive403s] using h0
  refine ⟨⟨?_, hspec⟩,
    fun env2 st2 resp h => _post_success_resets path payload env2 st2 resp h⟩
  rw [hspec, ihc]
  show (st.captcha_error_count + env.length) % 10 = env.length % 10
  rw [hc]
  simp

/-- The steady concrete client used by the C5 witness. -/
def steadyFix : TgtgClient :=
  { fixed_user_agent := some "UA", user_agent := some "UA",
    session := some { user_agent := some "UA", language := "en-GB",
                      datadome := none } }

theorem C5_witness :
    ((_post "p" .emptyPayload steadyFix
        (List.replicate 3 aBlock)).client.captcha_error_count
        = specConsecutive403s
            (_post "p" .emptyPayload steadyFix
              (List.replicate 3 aBlock)).events % 10 ∧
      specConsecutive403s
          (_post "p" .emptyPayload steadyFix
            (List.replicate 3 aBlock)).events
        = (List.replicate 3 aBlock).length) ∧
    (∀ (env2 : List Attempt) (st2 : TgtgClient) (resp : Response),
      (_post "p" .emptyPayload st2 env2).outcome = .ok resp →
      (_post "p" .emptyPayload st2 env2).client.captcha_error_count = 0) :=
  C5_amended_counter "p" .emptyPayload "UA" (List.replicate 3 aBlock)
    steadyFix ⟨rfl, rfl, rfl, rfl⟩ rfl
    (by
      intro a ha
      rcases List.eq_of_mem_replicate ha with rfl
      exact ⟨rfl, rfl⟩)

end Tgtg

namespace Tgtg

/-! ## C8 amended -/

/-- C8 (amended): during email login, for every JSON body that contains a
`state` field: `"TERMS"` raises `TgtgPollingError`; `"WAIT"` enters
polling with the returned `polling_id`; any other state raises
`TgtgLoginError` carrying the response status and content. (A body
lacking the `state` field raises a `KeyError` instead — see the
counterexample.) -/
theorem C8_email_login_dispatch (now : Nat) (st : TgtgClient)
    (sess : TgtgSession) (a : Attempt) (rest : List Attempt) (s : String)
    (he : st.email.isSome = true) (hat : st.access_token = none)
    (hsess : st.session = some sess) (hc : st.captcha_error_count = 0)
    (hok : a.resp.status_code = 200)
    (hstate : a.resp.body.state = some s) :
    (s = "TERMS" →
      login now st (a :: rest) =
        ⟨.error .pollingError, st,
          [Event.post AUTH_BY_EMAIL_ENDPOINT
            (.authByEmail st.device_type st.email) 200], rest⟩) ∧
    (s = "WAIT" →
      login now st (a :: rest) =
        (let r2 := start_polling a.resp.body.polling_id now st
            st.max_polling_tries rest
         ⟨r2.outcome, r2.client,
           Event.post AUTH_BY_EMAIL_ENDPOINT
             (.authByEmail st.device_type st.email) 200 :: r2.events,
           r2.rest⟩)) ∧
    (s ≠ "TERMS" → s ≠ "WAIT" →
      login now st (a :: rest) =
        ⟨.error (.loginError 200 a.resp.content), st,
          [Event.post AUTH_BY_EMAIL_ENDPOINT
            (.authByEmail st.device_type st.email) 200], rest⟩) := by
  have heta :
      ({ st with access_token := none, session := some sess,
                 captcha_error_count := 0 } : TgtgClient) = st := by
    rw [← hat, ← hsess]; exact captcha_reset_eta st hc
  refine ⟨?_, ?_, ?_⟩
  · intro hTerms; subst hTerms
    simp [login, _already_logged, _post, he, hat, hsess, hok, hstate, heta]
  · intro hWait; subst hWait
    simp [login, _already_logged, _post, he, hat, hsess, hok, hstate, heta]
  · intro hT hW
    simp [login, _already_logged, _post, he, hat, hsess, hok, hstate, hT, hW,
      heta]

/-- The `TERMS` email-auth response used by the C8 witness. -/
def aTerms : Attempt :=
  { resp := { status_code := 200, body := { state := some "TERMS" } } }

theorem C8_witness :
    login 0 emailClient (aTerms :: []) =
      ⟨.error .pollingError, emailClient,
        [Event.post AUTH_BY_EMAIL_ENDPOINT
          (.authByEmail emailClient.device_type emailClient.email) 200],
        []⟩ :=
  (C8_email_login_dispatch 0 emailClient
    { user_agent := some "UA", language := "en-GB", datadome := none }
    aTerms [] "TERMS" rfl rfl rfl rfl rfl rfl).1 rfl

/-! ## C9 amended -/

/-- `_create_session` changes only the user agent and the session. -/
theorem _create_session_preserves (st : TgtgClient) (a : Attempt) :
    (_create_session st a).email = st.email ∧
    (_create_session st a).access_token = st.access_token ∧
    (_create_session st a).refresh_token = st.refresh_token ∧
    (_create_session st a).last_time_token_refreshed
      = st.last_time_token_refreshed := by
  unfold _create_session
  split <;> exact ⟨rfl, rfl, rfl, rfl⟩

/-- Lazy session creation in `_post` changes only user agent and session. -/
theorem sessionInit_preserves (st : TgtgClient) (a : Attempt) :
    ((if st.session.isNone then _create_session st a else st)
        : TgtgClient).email = st.email ∧
    ((if st.session.isNone then _create_session st a else st)
        : TgtgClient).access_token = st.access_token ∧
    ((if st.session.isNone then _create_session st a else st)
        : TgtgClient).refresh_token = st.refresh_token ∧
    ((if st.session.isNone then _create_session st a else st)
        : TgtgClient).last_time_token_refreshed
      = st.last_time_token_refreshed := by
  split
  · exact _create_session_preserves st a
  · exact ⟨rfl, rfl, rfl, rfl⟩

/-- Challenge recovery changes only the cookie state. -/
theorem challengeRecovery_preserves (st : TgtgClient) (a : Attempt) :
    (challengeRecovery st a).1.email = st.email ∧
    (challengeRecovery st a).1.access_token = st.access_token ∧
    (challengeRecovery st a).1.refresh_token = st.refresh_token ∧
    (challengeRecovery st a).1.last_time_token_refreshed
      = st.last_time_token_refreshed := by
  unfold challengeRecovery
  cases a.fetch <;> exact ⟨rfl, rfl, rfl, rfl⟩

/-- The failsafe never touches email, the token pair, or the timestamp. -/
theorem failsafe_preserves (st : TgtgClient) (a : Attempt) :
    (failsafe st a).1.email = st.email ∧
    (failsafe st a).1.access_token = st.access_token ∧
    (failsafe st a).1.refresh_token = st.refresh_token ∧
    (failsafe st a).1.last_time_token_refreshed
      = st.last_time_token_refreshed := by
  simp only [failsafe]
  split
  · exact ⟨rfl, rfl, rfl, rfl⟩
  · split
    · exact _create_session_preserves _ a
    · split
      · exact _create_session_preserves _ a
      · split
        · exact _create_session_preserves _ a
        · exact ⟨rfl, rfl, rfl, rfl⟩

/-- The guarded send never modifies email, access_token, refresh_token or
the refresh timestamp, whatever the outcome. -/
theorem _post_preserves_credentials (path : String) (payload : Payload) :
    ∀ (env : List Attempt) (st : TgtgClient),
      (_post path payload st env).client.email = st.email ∧
      (_post path payload st env).client.access_token = st.access_token ∧
      (_post path payload st env).client.refresh_token = st.refresh_token ∧
      (_post path payload st env).client.last_time_token_refreshed
        = st.last_time_token_refreshed := by
  intro env
  induction env with
  | nil => intro st; exact ⟨rfl, rfl, rfl, rfl⟩
  | cons a rest ih =>
    intro st
    obtain ⟨i1, i2, i3, i4⟩ := sessionInit_preserves st a
    by_cases h200 : a.resp.status_code = 200 ∨ a.resp.status_code = 202
    · simp only [_post, if_pos h200]
      exact ⟨i1, i2, i3, i4⟩
    · by_cases h403 : a.resp.status_code = 403
      · simp only [_post, if_neg h200, if_pos h403]
        obtain ⟨c1, c2, c3, c4⟩ := challengeRecovery_preserves
          (if st.session.isNone then _create_session st a else st) a
        obtain ⟨f1, f2, f3, f4⟩ := failsafe_preserves
          (challengeRecovery
            (if st.session.isNone then _create_session st a else st) a).1 a
        obtain ⟨p1, p2, p3, p4⟩ := ih
          (failsafe (challengeRecovery
            (if st.session.isNone then _create_session st a else st) a).1 a).1
        exact ⟨p1.trans (f1.trans (c1.trans i1)),
               p2.trans (f2.trans (c2.trans i2)),
               p3.trans (f3.trans (c3.trans i3)),
               p4.trans (f4.trans (c4.trans i4))⟩
      · simp only [_post, if_neg h200, if_neg h403]
        exact ⟨i1, i2, i3, i4⟩

/-- C9 (amended): a guarded call never modifies email, the token pair or
the refresh timestamp (the challenge cookie, however, may be replaced by
a successfully fetched one during 403 recovery — see the counterexample);
a token refresh that terminates with an error leaves those fields
unchanged too, and on success either skips entirely or overwrites both
tokens and the timestamp together. -/
theorem C9_amended_atomic_credentials :
    (∀ (path : String) (payload : Payload) (env : List Attempt)
       (st : TgtgClient),
      (_post path payload st env).client.email = st.email ∧
      (_post path payload st env).client.access_token = st.access_token ∧
      (_post path payload st env).client.refresh_token = st.refresh_token ∧
      (_post path payload st env).client.last_time_token_refreshed
        = st.last_time_token_refreshed) ∧
    (∀ (now : Nat) (st : TgtgClient) (env : List Attempt) (e : TgtgError),
      (_refresh_token now st env).outcome = .error e →
      (_refresh_token now st env).client.email = st.email ∧
      (_refresh_token now st env).client.access_token = st.access_token ∧
      (_refresh_token now st env).client.refresh_token = st.refresh_token ∧
      (_refresh_token now st env).client.last_time_token_refreshed
        = st.last_time_token_refreshed) ∧
    (∀ (now : Nat) (st : TgtgClient) (env : List Attempt),
      (_refresh_token now st env).outcome = .ok () →
      (_refresh_token now st env).client = st ∨
      (_refresh_token now st env).client.last_time_token_refreshed
        = some now) := by
  refine ⟨fun path payload env st =>
    _post_preserves_credentials path payload env st, ?_, ?_⟩
  · intro now st env e h
    obtain ⟨p1, p2, p3, p4⟩ :=
      _post_preserves_credentials REFRESH_ENDPOINT
        (.refreshTok st.refresh_token) env st
    by_cases hskip : refreshSkipped st now = true
    · exact absurd h (by simp [_refresh_token, hskip])
    · cases hout : (_post REFRESH_ENDPOINT
          (.refreshTok st.refresh_token) st env).outcome with
      | ok resp => exact absurd h (by simp [_refresh_token, hskip, hout])
      | error e2 =>
        simp only [_refresh_token, if_neg hskip, hout]
        exact ⟨p1, p2, p3, p4⟩
  · intro now st env h
    by_cases hskip : refreshSkipped st now = true
    · left
      simp [_refresh_token, hskip]
    · right
      cases hout : (_post REFRESH_ENDPOINT
          (.refreshTok st.refresh_token) st env).outcome with
      | ok resp => simp [_refresh_token, hskip, hout]
      | error e2 => exact absurd h (by simp [_refresh_token, hskip, hout])

end Tgtg

namespace Tgtg

theorem C9_witness :
    (_refresh_token 20000 staleTokenClient [a500x]).outcome
        = .error (.apiError 500 "b500") ∧
    (_refresh_token 20000 staleTokenClient [a500x]).client.email
        = staleTokenClient.email ∧
    (_refresh_token 20000 staleTokenClient [a500x]).client.access_token
        = staleTokenClient.access_token ∧
    (_refresh_token 20000 staleTokenClient [a500x]).client.refresh_token
        = staleTokenClient.refresh_token ∧
    (_refresh_token 20000
        staleTokenClient [a500x]).client.last_time_token_refreshed
        = staleTokenClient.last_time_token_refreshed :=
  ⟨by decide,
   C9_amended_atomic_credentials.2.1 20000 staleTokenClient [a500x]
     (.apiError 500 "b500") (by decide)⟩

/-! ## C10 -/

/-- C10: a successful `get_credentials` returns exactly the four-field
snapshot (email, access_token, refresh_token, datadome_cookie) of the
post-login client — the refresh timestamp is not part of the exported
`Credentials` structure — and a client rebuilt from a snapshot starts
with `last_time_token_refreshed = None`, so its first `login` with both
tokens present always issues a POST to the refresh endpoint as its first
network call. -/
theorem C10_credentials_snapshot :
    (∀ (now : Nat) (st : TgtgClient) (env : List Attempt)
       (creds : Credentials),
      (get_credentials now st env).outcome = .ok creds →
      creds = ⟨(get_credentials now st env).client.email,
               (get_credentials now st env).client.access_token,
               (get_credentials now st env).client.refresh_token,
               (get_credentials now st env).client.datadome_cookie⟩) ∧
    (∀ c : Credentials,
      (clientFromCredentials c).last_time_token_refreshed = none) ∧
    (∀ (c : Credentials) (now : Nat) (a : Attempt) (rest : List Attempt),
      c.access_token.isSome = true → c.refresh_token.isSome = true →
      (login now (clientFromCredentials c) (a :: rest)).events.head? =
        some (.post REFRESH_ENDPOINT (.refreshTok c.refresh_token)
          a.resp.status_code)) := by
  refine ⟨?_, fun c => rfl, ?_⟩
  · intro now st env creds h
    cases hl : (login now st env).outcome with
    | ok u =>
      simp [get_credentials, hl] at h
      simp [get_credentials, hl]
      exact h.symm
    | error e =>
      exact absurd h (by simp [get_credentials, hl])
  · intro c now a rest hA hR
    have hskip : refreshSkipped (clientFromCredentials c) now = false := rfl
    have hA2 : (clientFromCredentials c).access_token.isSome = true := hA
    have hR2 : (clientFromCredentials c).refresh_token.isSome = true := hR
    have hrt : (clientFromCredentials c).refresh_token = c.refresh_token := rfl
    have hsn : (clientFromCredentials c).session = none := rfl
    obtain ⟨ra, hra⟩ := Option.isSome_iff_exists.mp hA
    obtain ⟨rr, hrr⟩ := Option.isSome_iff_exists.mp hR
    by_cases h200 : a.resp.status_code = 200 ∨ a.resp.status_code = 202
    · simp [login, _already_logged, hA2, hR2, hrt, hsn, hra, hrr,
        _refresh_token, hskip, _post, h200]
    · by_cases h403 : a.resp.status_code = 403
      · simp [login, _already_logged, hA2, hR2, hrt, hsn, hra, hrr,
          _refresh_token, hskip, _post, h200, h403]
        split <;> rfl
      · simp [login, _already_logged, hA2, hR2, hrt, hsn, hra, hrr,
          _refresh_token, hskip, _post, h200, h403]

/-- The snapshot used by the C10 witness. -/
def credsW : Credentials :=
  { email := some "user@example.com", access_token := some "atk",
    refresh_token := some "rtk", datadome_cookie := none }

theorem C10_witness :
    credsW.access_token.isSome = true ∧
    (login 3 (clientFromCredentials credsW) (a202x :: [])).events.head? =
      some (.post REFRESH_ENDPOINT (.refreshTok credsW.refresh_token) 202) :=
  ⟨rfl,
   C10_credentials_snapshot.2.2 credsW 3 a202x [] rfl rfl⟩

end Tgtg
